import Mathlib

/-!
Shallow embedding of the course-access and progress-tracking subsystem of the
skills-ms backend (src/api/endpoints/course.py and its collaborators), together
with theorems settling the specification claims about it.

Pure data (courses, users, database rows) is embedded as Lean structures; the
stateful endpoints are embedded as explicit state-passing functions over an
application state (database rows, coin ledger, cache entries, applied XP
increments); Python exceptions become Except values returned next to the
post-state.
-/

namespace SkillsMs

/-- A lecture of a course section (api/schemas/course.py: id, type, duration, title). -/
structure Lecture where
  id : String
  type : String
  duration : Int
  title : String
deriving DecidableEq, Repr

/-- A section of a course: a title and an ordered list of lectures. -/
structure CourseSection where
  title : String
  lectures : List Lecture
deriving DecidableEq, Repr

/-- A course of the catalog: identifier, free flag, price, ordered sections. -/
structure Course where
  id : String
  title : String
  free : Bool
  price : Nat
  sections : List CourseSection
deriving DecidableEq, Repr

/-- An authenticated user (api/schemas/user.py): identifier and admin flag. -/
structure User where
  id : String
  admin : Bool
deriving DecidableEq, Repr

/-- The in-memory catalog COURSES (api/services/courses.py, a mapping from
course id to course; embedded as a list of courses looked up by id). -/
abbrev Catalog := List Course

/-- A row of the CourseAccess table: one ownership (purchase) record. -/
structure CourseAccessRow where
  user_id : String
  course_id : String
deriving DecidableEq, Repr

/-- A row of the LastWatch table: last time the user opened the course. -/
structure LastWatchRow where
  user_id : String
  course_id : String
  timestamp : Nat
deriving DecidableEq, Repr

/-- A row of the LectureProgress table: a completion fact for a triple. -/
structure LectureProgressRow where
  user_id : String
  course_id : String
  lecture_id : String
deriving DecidableEq, Repr

/-- A row of the SkillCourse association table (api/models/skill_course.py). -/
structure SkillCourseRow where
  skill_id : String
  course_id : String
deriving DecidableEq, Repr

/-- The relational state: the tables read and written by the course endpoints. -/
structure DB where
  course_access : List CourseAccessRow
  last_watch : List LastWatchRow
  lecture_progress : List LectureProgressRow
  skill_courses : List SkillCourseRow
deriving DecidableEq, Repr

/-- The exceptions raised by the course endpoints (api/exceptions/course.py). -/
inductive ApiError
  | courseNotFound
  | lectureNotFound
  | noCourseAccess
  | alreadyCompleted
  | alreadyPurchased
  | courseIsFree
  | notEnoughCoins
deriving DecidableEq, Repr

/-- External collaborators of the endpoints. `premium` is the entitlement
collaborator behind has_premium (api/services/shop.py, not among the shown
sources; modelled from the spec as HasActiveSubscription(user) -> bool).
`xpOk` tells whether the external AddXP call for a given skill succeeds or
raises (the spec describes AddXP as best-effort per association).
`lecture_xp` is the settings.lecture_xp constant. -/
structure Env where
  premium : String → Bool
  xpOk : String → Bool
  lecture_xp : Nat

/-- Modelled from the spec: LectureProgress.get_completed (the model class is
not among the shown sources) returns the lecture ids of all completion rows
for the (user, course) pair. -/
def get_completed (db : DB) (uid cid : String) : List String :=
  (db.lecture_progress.filter (fun r => r.user_id == uid && r.course_id == cid)).map
    (fun r => r.lecture_id)

/-- Modelled from the spec: LectureProgress.is_completed checks whether a
completion row exists for the (user, course, lecture) triple. -/
def is_completed (db : DB) (uid cid lid : String) : Bool :=
  db.lecture_progress.any (fun r => r.user_id == uid && r.course_id == cid && r.lecture_id == lid)

/-- Modelled from the spec: LectureProgress.set_completed creates the
completion row for the triple. -/
def set_completed (db : DB) (uid cid lid : String) : DB :=
  { db with lecture_progress := db.lecture_progress ++ [⟨uid, cid, lid⟩] }

/-- Modelled from the spec: LastWatch.update is an upsert - one row per
(user, course) pair, mutated if present, inserted otherwise. -/
def lastWatchUpdate (db : DB) (uid cid : String) (t : Nat) : DB :=
  if db.last_watch.any (fun r => r.user_id == uid && r.course_id == cid) then
    { db with last_watch :=
        db.last_watch.map (fun r =>
          if r.user_id == uid && r.course_id == cid then ⟨uid, cid, t⟩ else r) }
  else
    { db with last_watch := db.last_watch ++ [⟨uid, cid, t⟩] }

/-- get_owned_courses (course.py lines 72-76), the body under the
redis_cached decorator: the union of the course ids of the user's CourseAccess
rows and of the user's LastWatch rows. -/
def get_owned_courses (db : DB) (uid : String) : List String :=
  ((db.course_access.filter (fun r => r.user_id == uid)).map (fun r => r.course_id))
    ++ ((db.last_watch.filter (fun r => r.user_id == uid)).map (fun r => r.course_id))

/-- has_course_access (course.py lines 56-69), with the cache of
get_owned_courses transparent (the cached read path is modelled separately
for the cache-invalidation claim): ok when the course is free, or the user is
an admin, or the course id is among get_owned_courses, or the user has
premium; otherwise NoCourseAccessException. -/
def has_course_access (env : Env) (db : DB) (course : Course) (user : User) :
    Except ApiError Unit :=
  if course.free || user.admin then .ok ()
  else if (get_owned_courses db user.id).contains course.id then .ok ()
  else if env.premium user.id then .ok ()
  else .error .noCourseAccess

/-- The access predicate exactly as the specification states it (for the
refinement comparison of claim C1): free, or admin, or an ownership
(purchase) record exists for the pair, or an active subscription entitlement -
with LastWatch rows not consulted. -/
def specHasAccess (env : Env) (db : DB) (course : Course) (user : User) : Bool :=
  course.free || user.admin
    || db.course_access.any (fun r => r.user_id == user.id && r.course_id == course.id)
    || env.premium user.id

/-- The course-id set built by get_accessible_courses (course.py lines
266-280): the ids of the courses that are free or the user is an admin,
together with the owned course ids restricted to the catalog. -/
def get_accessible_course_ids (cat : Catalog) (db : DB) (user : User) : List String :=
  ((cat.filter (fun c => c.free || user.admin)).map (fun c => c.id))
    ++ ((get_owned_courses db user.id).filter (fun cid => cat.any (fun c => c.id == cid)))

/-- The coin ledger. `coins` maps a user id to their balance; `debits`
records every invocation of the Debit call, successful or not, so that
"never touches the ledger" is observable in the model. -/
structure Shop where
  coins : String → Nat
  debits : List (String × Nat)

/-- Modelled from the spec: the Ledger collaborator
Debit(user, amount, memo) -> bool behind spend_coins (api/services/shop.py is
not among the shown sources) - false on insufficient funds, no partial debit;
the invocation is logged either way. -/
def spend_coins (shop : Shop) (uid : String) (amount : Nat) : Bool × Shop :=
  if amount ≤ shop.coins uid then
    (true, { coins := fun u => if u == uid then shop.coins uid - amount else shop.coins u,
             debits := shop.debits ++ [(uid, amount)] })
  else
    (false, { shop with debits := shop.debits ++ [(uid, amount)] })

/-- The derived-cache layer state. The course_access namespace (the
redis_cached decorator on get_owned_courses) holds one entry per user id; the
lecture_progress and xp namespaces are kept as opaque entry lists, since the
claims only concern their invalidation. -/
structure Cache where
  course_access : List (String × List String)
  lecture_progress : List String
  xp : List String
deriving DecidableEq, Repr

/-- The whole application state threaded through the mutating endpoints:
database tables, coin ledger, cache entries, and the log of XP increments
applied through the external skill-XP collaborator. -/
structure St where
  db : DB
  shop : Shop
  cache : Cache
  xp_log : List (String × String × Nat)

/-- Modelled from the spec: the check-then-populate read path of the
redis_cached("course_access", "user_id") decorator on get_owned_courses
(api/utils/cache.py is not among the shown sources) - on a hit the cached
value is returned unchanged, on a miss the body is computed and stored. -/
def get_owned_courses_cached (db : DB) (cache : Cache) (uid : String) :
    List String × Cache :=
  match cache.course_access.lookup uid with
  | some v => (v, cache)
  | none =>
    let v := get_owned_courses db uid
    (v, { cache with course_access := cache.course_access ++ [(uid, v)] })

/-- has_course_access reading get_owned_courses through the cache (the form
in which watch_course evaluates its access dependency). -/
def has_course_access_c (env : Env) (db : DB) (cache : Cache) (course : Course) (user : User) :
    Except ApiError Unit × Cache :=
  if course.free || user.admin then (.ok (), cache)
  else
    match get_owned_courses_cached db cache user.id with
    | (owned, cache1) =>
      if owned.contains course.id then (.ok (), cache1)
      else if env.premium user.id then (.ok (), cache1)
      else (.error .noCourseAccess, cache1)

/-- watch_course (course.py lines 139-148): after the has_course_access
dependency passes, upsert the LastWatch row and return True. The body
performs no cache invalidation. -/
def watch_course (env : Env) (st : St) (user : User) (course : Course) (t : Nat) :
    Except ApiError Bool × St :=
  match has_course_access_c env st.db st.cache course user with
  | (.error e, cache1) => (.error e, { st with cache := cache1 })
  | (.ok _, cache1) =>
    (.ok true, { st with db := lastWatchUpdate st.db user.id course.id t, cache := cache1 })

/-- buy_course (course.py lines 283-310): reject when the course is free;
reject when a CourseAccess row already exists; debit the price, rejecting on
insufficient funds; otherwise create the ownership record, send the
best-effort purchase email (no modelled state), and clear the course_access
cache namespace. -/
def buy_course (st : St) (user : User) (course : Course) : Except ApiError Bool × St :=
  if course.free then (.error .courseIsFree, st)
  else if st.db.course_access.any (fun r => r.user_id == user.id && r.course_id == course.id) then
    (.error .alreadyPurchased, st)
  else
    match spend_coins st.shop user.id course.price with
    | (false, shop1) => (.error .notEnoughCoins, { st with shop := shop1 })
    | (true, shop1) =>
      let db1 := { st.db with course_access := st.db.course_access ++ [⟨user.id, course.id⟩] }
      let cache1 := { st.cache with course_access := [] }
      (.ok true, { st with db := db1, shop := shop1, cache := cache1 })

/-- get_lecture (course.py lines 47-53): scan the sections in order and the
lectures of each section in order, returning the first lecture with the
given id, else LectureNotFoundException. -/
def get_lecture (course : Course) (lecture_id : String) : Except ApiError Lecture :=
  match course.sections.findSome? (fun s => s.lectures.find? (fun l => l.id == lecture_id)) with
  | some l => .ok l
  | none => .error .lectureNotFound

/-- The exceptions that can escape the endpoints once the external
collaborators are in the picture: an APIException, an exception raised by the
external AddXP call, an httpx raise_for_status error, a pydantic validation
error, or an AttributeError. -/
inductive Exn
  | api (e : ApiError)
  | xpFailure (skill_id : String)
  | httpStatusError
  | validationError
  | attributeError
deriving DecidableEq, Repr

/-- The XP fan-out loop of complecte_lecture (course.py lines 257-258): the
AddXP calls are made in association order with no try/except, so the first
failing call raises out of the loop, keeping the increments applied so far. -/
def xpFanout (env : Env) (uid : String) (amount : Nat) :
    List SkillCourseRow → St → St × Option Exn
  | [], st => (st, none)
  | r :: rest, st =>
    if env.xpOk r.skill_id then
      xpFanout env uid amount rest { st with xp_log := st.xp_log ++ [(uid, r.skill_id, amount)] }
    else
      (st, some (.xpFailure r.skill_id))

/-- complecte_lecture (course.py lines 233-263): the get_lecture dependency
resolves first; then the completion-conflict check; then the completion row
is written; then the XP fan-out runs (uncaught failures propagate after the
row was written); on full success the xp and lecture_progress cache
namespaces are cleared and True is returned. -/
def complecte_lecture (env : Env) (st : St) (user : User) (course : Course) (lecture_id : String) :
    Except Exn Bool × St :=
  match get_lecture course lecture_id with
  | .error e => (.error (.api e), st)
  | .ok lecture =>
    if is_completed st.db user.id course.id lecture.id then
      (.error (.api .alreadyCompleted), st)
    else
      let st1 := { st with db := set_completed st.db user.id course.id lecture.id }
      let assocs := st.db.skill_courses.filter (fun r => r.course_id == course.id)
      match xpFanout env user.id env.lecture_xp assocs st1 with
      | (st2, some e) => (.error e, st2)
      | (st2, none) =>
        (.ok true, { st2 with cache := { st2.cache with xp := [], lecture_progress := [] } })

/-- next_unseen_lecture (course.py lines 216-230): scan the sections in
order and the lectures of each section in order, returning the first pair
whose lecture id is not in the completed set; when every lecture is watched,
fall back to sections[0].lectures[0] - the Python indexing raises IndexError
when the sections list or the first section's lectures list is empty, which
the embedding renders as none. -/
def next_unseen_lecture (course : Course) (watched : List String) :
    Option (CourseSection × Lecture) :=
  match course.sections.findSome? (fun s =>
      (s.lectures.find? (fun l => !(watched.contains l.id))).map (fun l => (s, l))) with
  | some r => some r
  | none =>
    match course.sections with
    | [] => none
    | s :: _ =>
      match s.lectures with
      | [] => none
      | l :: _ => some (s, l)

/-- The flattening of a course into its (section, lecture) pairs in section
order then lecture order (the specification's reading of the scan). -/
def coursePairs (course : Course) : List (CourseSection × Lecture) :=
  course.sections.flatMap (fun s => s.lectures.map (fun l => (s, l)))

/-- The next-unseen operation as the claim describes it: the first pair, in
section order then lecture order, whose lecture is not watched; when all are
watched, the first lecture of the first section when both exist. -/
def specNextUnseen (course : Course) (watched : List String) :
    Option (CourseSection × Lecture) :=
  match (coursePairs course).find? (fun p => !(watched.contains p.2.id)) with
  | some r => some r
  | none =>
    match course.sections with
    | [] => none
    | s :: _ =>
      match s.lectures with
      | [] => none
      | l :: _ => some (s, l)

/-- A parsed Range header value matching bytes=<digits>-(<digits>)?: the
start offset and the optional inclusive end offset. -/
structure RangeReq where
  start : Nat
  endOpt : Option Nat
deriving DecidableEq, Repr

/-- The 206 response assembled by download_mp4_lecture: the payload, the
status code, the fields of the Content-Range header (bytes start-end/total,
kept as integers since the printed end is start minus one below an empty
span), and the presence of the Accept-Ranges header. -/
structure StreamResp where
  body : List Nat
  status : Nat
  contentRangeStart : Nat
  contentRangeEnd : Int
  contentRangeTotal : Nat
  acceptRanges : Bool
deriving DecidableEq, Repr

/-- A file on the backing store, as its list of bytes. -/
abbrev FileBytes := List Nat

/-- Python file.read(count) after seek(start): a negative count means read
to end of file, a nonnegative count reads at most count bytes. -/
def fileReadFrom (file : FileBytes) (start : Nat) (count : Int) : FileBytes :=
  if count < 0 then file.drop start else (file.drop start).take count.toNat

/-- download_mp4_lecture (course.py lines 195-213): the redis lookup of the
token (modelled by the stored argument) yields LectureNotFoundException when
absent or expired; otherwise end is start + chunk when the end is omitted and
max(start, e + 1) when given, clamped to the file size, and a 206 response
with the corresponding Content-Range header and byte span is returned. -/
def download_mp4_lecture (chunk : Nat) (stored : Option FileBytes) (r : RangeReq) :
    Except ApiError StreamResp :=
  match stored with
  | none => .error .lectureNotFound
  | some file =>
    let start := r.start
    let e0 : Nat :=
      match r.endOpt with
      | some e2 => max start (e2 + 1)
      | none => start + chunk
    let filesize := file.length
    let e1 := min e0 filesize
    .ok { body := fileReadFrom file start ((e1 : Int) - (start : Int)),
          status := 206,
          contentRangeStart := start,
          contentRangeEnd := (e1 : Int) - 1,
          contentRangeTotal := filesize,
          acceptRanges := true }

/-- The exclusive end of the served span as computed by the source: the
omitted end becomes start + chunk, a given end e becomes max(start, e + 1),
and the result is clamped to the file size. -/
def streamEnd (chunk : Nat) (filesize : Nat) (r : RangeReq) : Nat :=
  min (match r.endOpt with
       | some e2 => max r.start (e2 + 1)
       | none => r.start + chunk) filesize

/-- The exclusive end of the served span as claim C4 states it: min(S, e + 1)
for a given end e, min(S, start + chunk) for an omitted end. -/
def claimedRangeEnd (chunk : Nat) (filesize : Nat) (start : Nat) : Option Nat → Nat
  | some e => min filesize (e + 1)
  | none => min filesize (start + chunk)

/-- A subtask of the external challenges service (api/schemas/subtasks.py);
only the type field is consumed by the view-time computation. -/
structure SubTaskM where
  type : String
deriving DecidableEq, Repr

/-- The possible outcomes of the HTTP call made inside challenge_subtasks:
a successful response whose items all validate, a non-2xx response, or a
response body whose items fail SubTask validation. -/
inductive SubtaskFetch
  | ok (tasks : List SubTaskM)
  | httpError
  | malformedData
deriving DecidableEq, Repr

/-- challenge_subtasks (api/services/challenges.py lines 4-9): the function
calls response.raise_for_status() and validates every item into a SubTask
with no try/except, so a non-2xx response raises an httpx HTTPStatusError
and a malformed item raises a pydantic ValidationError; on success the list
of subtasks is returned. -/
def challenge_subtasks : SubtaskFetch → Except Exn (List SubTaskM)
  | .ok ts => .ok ts
  | .httpError => .error .httpStatusError
  | .malformedData => .error .validationError

/-- The per-task time estimate of get_tasks_viewtime (course.py lines
375-381): 60 seconds for question-style types, 1800 for coding challenges,
zero otherwise. -/
def taskTime (t : SubTaskM) : Nat :=
  if t.type == "MULTIPLE_CHOICE_QUESTION" || t.type == "MATCHING" then 60
  else if t.type == "CODING_CHALLENGE" then 60 * 30
  else 0

/-- The responses get_tasks_viewtime can return: a TotalTime payload or a
DataFetchError payload (the endpoint returns the error object rather than
raising it). -/
inductive TasksResp
  | total (total_time : Nat)
  | dataFetchError
deriving DecidableEq, Repr

/-- get_tasks_viewtime (course.py lines 362-382): exceptions raised inside
challenge_subtasks propagate uncaught; on success the returned value is
always a list, so the isinstance guard that would return DataFetchError()
never fires, and the summed TotalTime is returned. -/
def get_tasks_viewtime (fetch : SubtaskFetch) : Except Exn TasksResp :=
  match challenge_subtasks fetch with
  | .error e => .error e
  | .ok tasks_data => .ok (.total (tasks_data.foldl (fun acc t => acc + taskTime t) 0))

/-- The per-section view time of get_course_viewtime (course.py lines
337-344): the summed durations of the completed lectures of the section with
a positive duration. -/
def sectionViewTime (completed : List String) (s : CourseSection) : Int :=
  (s.lectures.filter (fun l => decide (0 < l.duration) && completed.contains l.id)).foldl
    (fun acc l => acc + l.duration) 0

/-- The per-course view time of get_course_viewtime (course.py lines
333-350): the sum of the positive section times. -/
def courseViewTime (completed : List String) (c : Course) : Int :=
  ((c.sections.map (sectionViewTime completed)).filter (fun t => decide (0 < t))).foldl
    (fun acc t => acc + t) 0

/-- The total_time field of the ViewTime payload of get_course_viewtime
(course.py lines 313-359): the sum of the positive course times over the
whole catalog, with each course's completed set drawn from the user's
LectureProgress rows. -/
def get_course_viewtime_total (cat : Catalog) (db : DB) (uid : String) : Int :=
  ((cat.map (fun c => courseViewTime (get_completed db uid c.id) c)).filter
      (fun t => decide (0 < t))).foldl (fun acc t => acc + t) 0

/-- get_viewtime (course.py lines 385-395): the course view time is computed
first, then get_tasks_viewtime is called - an exception raised there
propagates; a TotalTime response contributes its total_time; a
DataFetchError response has no total_time attribute, so reading it would
raise an AttributeError (this arm is unreachable, since get_tasks_viewtime
never returns DataFetchError). -/
def get_viewtime (cat : Catalog) (db : DB) (user : User) (fetch : SubtaskFetch) :
    Except Exn Int :=
  let course_total := get_course_viewtime_total cat db user.id
  match get_tasks_viewtime fetch with
  | .error e => .error e
  | .ok (.total t) => .ok (course_total + t)
  | .ok .dataFetchError => .error .attributeError

/-! ## Theorems -/

/-- Membership in the owned-courses set built by get_owned_courses: the
course id of some CourseAccess row of the user, or of some LastWatch row of
the user. -/
theorem get_owned_courses_spec (db : DB) (uid cid : String) :
    (get_owned_courses db uid).contains cid = true ↔
      ((∃ r ∈ db.course_access, r.user_id = uid ∧ r.course_id = cid)
        ∨ (∃ r ∈ db.last_watch, r.user_id = uid ∧ r.course_id = cid)) := by
  simp only [get_owned_courses, List.contains_iff_exists_mem_beq, List.mem_append,
    List.mem_map, List.mem_filter, beq_iff_eq]
  constructor
  · rintro ⟨x, hx | hx, rfl⟩
    · obtain ⟨r, ⟨hr, hru⟩, rfl⟩ := hx
      exact .inl ⟨r, hr, by simpa using hru, rfl⟩
    · obtain ⟨r, ⟨hr, hru⟩, rfl⟩ := hx
      exact .inr ⟨r, hr, by simpa using hru, rfl⟩
  · rintro (⟨r, hr, hru, rfl⟩ | ⟨r, hr, hru, rfl⟩)
    · exact ⟨r.course_id, .inl ⟨r, ⟨hr, by simpa using hru⟩, rfl⟩, rfl⟩
    · exact ⟨r.course_id, .inr ⟨r, ⟨hr, by simpa using hru⟩, rfl⟩, rfl⟩

/-- C1, counterexample: a user with no admin role, no ownership record and
no subscription entitlement, on a non-free course, is granted access by
has_course_access solely because a LastWatch row exists for the pair - while
the access predicate stated by the claim denies it, so LastWatch rows do
influence the access decision. -/
theorem C1_counterexample :
    has_course_access ⟨fun _ => false, fun _ => true, 3⟩
        ⟨[], [⟨"u", "c", 0⟩], [], []⟩ ⟨"c", "T", false, 100, []⟩ ⟨"u", false⟩ = .ok ()
      ∧ specHasAccess ⟨fun _ => false, fun _ => true, 3⟩
        ⟨[], [⟨"u", "c", 0⟩], [], []⟩ ⟨"c", "T", false, 100, []⟩ ⟨"u", false⟩ = false := by
  constructor <;> rfl

/-- C1, amended: has_course_access grants access if and only if the course
is free, or the user is an admin, or an ownership record exists for the
pair, or a LastWatch row exists for the pair, or the user holds the
subscription entitlement - LastWatch rows do take part in the decision. -/
theorem C1_access_characterization (env : Env) (db : DB) (course : Course) (user : User) :
    has_course_access env db course user = .ok () ↔
      (course.free = true ∨ user.admin = true
        ∨ (∃ r ∈ db.course_access, r.user_id = user.id ∧ r.course_id = course.id)
        ∨ (∃ r ∈ db.last_watch, r.user_id = user.id ∧ r.course_id = course.id)
        ∨ env.premium user.id = true) := by
  have hok : has_course_access env db course user = .ok () ↔
      (course.free = true ∨ user.admin = true
        ∨ (get_owned_courses db user.id).contains course.id = true
        ∨ env.premium user.id = true) := by
    unfold has_course_access
    split_ifs with h1 h2 h3 <;> simp_all <;> tauto
  rw [hok]
  have hmem := get_owned_courses_spec db user.id course.id
  constructor
  · rintro (h | h | h | h)
    · exact .inl h
    · exact .inr (.inl h)
    · rcases hmem.mp h with h2 | h2
      · exact .inr (.inr (.inl h2))
      · exact .inr (.inr (.inr (.inl h2)))
    · exact .inr (.inr (.inr (.inr h)))
  · rintro (h | h | h | h | h)
    · exact .inl h
    · exact .inr (.inl h)
    · exact .inr (.inr (.inl (hmem.mpr (.inl h))))
    · exact .inr (.inr (.inl (hmem.mpr (.inr h))))
    · exact .inr (.inr (.inr h))

/-- Witness for C1: the amended characterization instantiated at the
LastWatch-only state of the counterexample. -/
theorem C1_access_characterization_witness :
    has_course_access ⟨fun _ => false, fun _ => true, 3⟩
        ⟨[], [⟨"u", "c", 0⟩], [], []⟩ ⟨"c", "T", false, 100, []⟩ ⟨"u", false⟩ = .ok () ↔
      (Course.free ⟨"c", "T", false, 100, []⟩ = true
        ∨ User.admin ⟨"u", false⟩ = true
        ∨ (∃ r ∈ ([] : List CourseAccessRow), r.user_id = "u" ∧ r.course_id = "c")
        ∨ (∃ r ∈ [(⟨"u", "c", 0⟩ : LastWatchRow)], r.user_id = "u" ∧ r.course_id = "c")
        ∨ (fun (_ : String) => false) "u" = true) :=
  C1_access_characterization ⟨fun _ => false, fun _ => true, 3⟩
    ⟨[], [⟨"u", "c", 0⟩], [], []⟩ ⟨"c", "T", false, 100, []⟩ ⟨"u", false⟩

/-- List.contains agrees with membership on string lists. -/
theorem contains_eq_true_iff_mem {l : List String} {a : String} :
    l.contains a = true ↔ a ∈ l := by
  simp [List.contains_iff_exists_mem_beq]

/-- C2, counterexample: a non-admin user holding the premium entitlement is
granted access to a non-free, non-owned catalog course by has_course_access,
yet the course id is not in the set built by get_accessible_courses - the
listing ignores the entitlement, so the claimed iff fails. -/
theorem C2_counterexample :
    has_course_access ⟨fun _ => true, fun _ => true, 3⟩ ⟨[], [], [], []⟩
        ⟨"c", "T", false, 100, []⟩ ⟨"u", false⟩ = .ok ()
      ∧ ¬ ("c" ∈ get_accessible_course_ids [⟨"c", "T", false, 100, []⟩]
            ⟨[], [], [], []⟩ ⟨"u", false⟩) := by
  exact ⟨rfl, by decide⟩

/-- C2, amended: for a catalog with distinct course ids, a catalog course's
id is in the set built by get_accessible_courses iff the course is free, or
the user is an admin, or the id is in the owned set of get_owned_courses -
the premium-entitlement disjunct of has_course_access is not reflected in
the listing. -/
theorem C2_accessible_iff_free_admin_owned (cat : Catalog) (db : DB) (user : User)
    (hinj : ∀ c1 ∈ cat, ∀ c2 ∈ cat, c1.id = c2.id → c1 = c2)
    (course : Course) (hc : course ∈ cat) :
    course.id ∈ get_accessible_course_ids cat db user ↔
      (course.free = true ∨ user.admin = true
        ∨ (get_owned_courses db user.id).contains course.id = true) := by
  unfold get_accessible_course_ids
  simp only [List.mem_append, List.mem_map, List.mem_filter]
  constructor
  · rintro (⟨c2, ⟨hc2, hp⟩, hid⟩ | ⟨hmem, _⟩)
    · obtain rfl := hinj c2 hc2 course hc hid
      rcases Bool.or_eq_true_iff.mp hp with h | h
      · exact .inl h
      · exact .inr (.inl h)
    · exact .inr (.inr (contains_eq_true_iff_mem.mpr hmem))
  · have hany : cat.any (fun c => c.id == course.id) = true :=
      List.any_eq_true.mpr ⟨course, hc, beq_self_eq_true _⟩
    rintro (h | h | h)
    · exact .inl ⟨course, ⟨hc, by simp [h]⟩, rfl⟩
    · exact .inl ⟨course, ⟨hc, by simp [h]⟩, rfl⟩
    · exact .inr ⟨contains_eq_true_iff_mem.mp h, hany⟩

/-- Witness for C2: on a one-course catalog holding a free course, the
amended characterization evaluates as expected. -/
theorem C2_accessible_witness :
    ("f" ∈ get_accessible_course_ids [⟨"f", "F", true, 0, []⟩] ⟨[], [], [], []⟩ ⟨"u", false⟩ ↔
      (Course.free ⟨"f", "F", true, 0, []⟩ = true ∨ User.admin ⟨"u", false⟩ = true
        ∨ (get_owned_courses ⟨[], [], [], []⟩ "u").contains "f" = true)) :=
  C2_accessible_iff_free_admin_owned [⟨"f", "F", true, 0, []⟩] ⟨[], [], [], []⟩ ⟨"u", false⟩
    (by decide) ⟨"f", "F", true, 0, []⟩ (by decide)

/-- C3: buy_course on a free course rejects with CourseIsFree leaving the
whole state - the debit log included - untouched; with an existing ownership
record it rejects with the conflict, again without any debit; when the debit
reports insufficient funds it rejects with NotEnoughCoins and no ownership
record is created (only the failed debit attempt is logged); and when the
debit succeeds the ownership record is created unconditionally and the price
is deducted. -/
theorem C3_buy_course (st : St) (user : User) (course : Course) :
    (course.free = true →
        buy_course st user course = (.error .courseIsFree, st))
    ∧ (course.free = false →
        st.db.course_access.any
            (fun r => r.user_id == user.id && r.course_id == course.id) = true →
        buy_course st user course = (.error .alreadyPurchased, st))
    ∧ (course.free = false →
        st.db.course_access.any
            (fun r => r.user_id == user.id && r.course_id == course.id) = false →
        st.shop.coins user.id < course.price →
        buy_course st user course =
          (.error .notEnoughCoins,
            { st with shop :=
                { st.shop with debits := st.shop.debits ++ [(user.id, course.price)] } }))
    ∧ (course.free = false →
        st.db.course_access.any
            (fun r => r.user_id == user.id && r.course_id == course.id) = false →
        course.price ≤ st.shop.coins user.id →
        ∃ st2, buy_course st user course = (.ok true, st2)
          ∧ st2.db.course_access = st.db.course_access ++ [⟨user.id, course.id⟩]
          ∧ st2.shop.coins user.id = st.shop.coins user.id - course.price
          ∧ st2.cache.course_access = []) := by
  refine ⟨?_, ?_, ?_, ?_⟩
  · intro hf
    simp [buy_course, hf]
  · intro hf hex
    simp [buy_course, hf, hex]
  · intro hf hex hlt
    have hnle : ¬ course.price ≤ st.shop.coins user.id := by omega
    simp [buy_course, hf, hex, spend_coins, hnle]
  · intro hf hex hle
    refine ⟨{ st with
        db := { st.db with course_access := st.db.course_access ++ [⟨user.id, course.id⟩] },
        shop := { coins := fun u =>
                    if u == user.id then st.shop.coins user.id - course.price
                    else st.shop.coins u,
                  debits := st.shop.debits ++ [(user.id, course.price)] },
        cache := { st.cache with course_access := [] } },
      by simp [buy_course, hf, hex, spend_coins, hle], rfl, by simp, rfl⟩

/-- Witness for C3: a 100-coin course bought by a user with 150 coins and no
prior record succeeds, creates the record, and leaves a 50-coin balance. -/
theorem C3_buy_course_witness :
    ∃ st2,
      buy_course ⟨⟨[], [], [], []⟩, ⟨fun _ => 150, []⟩, ⟨[], [], []⟩, []⟩
          ⟨"u", false⟩ ⟨"c", "T", false, 100, []⟩ = (.ok true, st2)
        ∧ st2.db.course_access = [] ++ [⟨"u", "c"⟩]
        ∧ st2.shop.coins "u" = 150 - 100
        ∧ st2.cache.course_access = [] :=
  (C3_buy_course ⟨⟨[], [], [], []⟩, ⟨fun _ => 150, []⟩, ⟨[], [], []⟩, []⟩
      ⟨"u", false⟩ ⟨"c", "T", false, 100, []⟩).2.2.2 rfl rfl (by decide)

/-- download_mp4_lecture on a stored file, written with the served span's
exclusive end factored out as streamEnd. -/
theorem download_mp4_lecture_eq (chunk : Nat) (file : FileBytes) (r : RangeReq) :
    download_mp4_lecture chunk (some file) r =
      .ok { body := fileReadFrom file r.start
                      ((streamEnd chunk file.length r : Int) - (r.start : Int)),
            status := 206,
            contentRangeStart := r.start,
            contentRangeEnd := (streamEnd chunk file.length r : Int) - 1,
            contentRangeTotal := file.length,
            acceptRanges := true } := rfl

/-- Python's seek-then-read on a span whose exclusive end is clamped inside
the file is the drop-then-take slice, also when the end falls below the
start (a negative count reads to end of file, which is empty past it). -/
theorem fileReadFrom_spec (file : FileBytes) (start E : Nat) (hE : E ≤ file.length)
    (hkey : start ≤ E ∨ file.length ≤ start) :
    fileReadFrom file start ((E : Int) - (start : Int)) =
      (file.drop start).take (E - start) := by
  unfold fileReadFrom
  by_cases h : (E : Int) - (start : Int) < 0
  · rw [if_pos h]
    have h1 : file.length ≤ start := by omega
    have h2 : E - start = 0 := by omega
    rw [List.drop_eq_nil_of_le h1, h2]
    simp
  · rw [if_neg h]
    have h2 : ((E : Int) - (start : Int)).toNat = E - start := by omega
    rw [h2]

/-- The start of every served span never exceeds its computed pre-clamp
exclusive end. -/
theorem streamEnd_pre_ge_start (chunk : Nat) (r : RangeReq) :
    r.start ≤ (match r.endOpt with
               | some e2 => max r.start (e2 + 1)
               | none => r.start + chunk) := by
  cases r.endOpt <;> simp

/-- C4, counterexample: for the request bytes=5-2 on a 10-byte file the
claim asserts the span [5, min(10, 2+1)) and hence the Content-Range end
min(10, 3) - 1 = 2, but download_mp4_lecture clamps the end upward to
max(start, e+1) = 5 before clamping by the size, answering Content-Range
bytes 5-4/10 with an empty body. -/
theorem C4_counterexample :
    (download_mp4_lecture 1024 (some (List.range 10)) ⟨5, some 2⟩).map
        (fun resp => resp.contentRangeEnd) = .ok 4
      ∧ ((claimedRangeEnd 1024 10 5 (some 2) : Int) - 1 ≠ 4) := by
  exact ⟨rfl, by decide⟩

/-- C4, amended: for every stored file and parsed Range request the response
is a 206 carrying Accept-Ranges, Content-Range bytes start-(end-1)/S and the
byte span [start, end) of the file, where the exclusive end is
min(S, start + chunk) for an omitted end and min(S, max(start, e + 1)) for a
given end e - so the body holds exactly end - start bytes (zero when the
start lies past the file). -/
theorem C4_range_response (chunk : Nat) (file : FileBytes) (r : RangeReq) :
    ∃ resp, download_mp4_lecture chunk (some file) r = .ok resp
      ∧ resp.status = 206
      ∧ resp.acceptRanges = true
      ∧ resp.contentRangeStart = r.start
      ∧ resp.contentRangeTotal = file.length
      ∧ resp.contentRangeEnd = (streamEnd chunk file.length r : Int) - 1
      ∧ resp.body = (file.drop r.start).take (streamEnd chunk file.length r - r.start)
      ∧ resp.body.length = streamEnd chunk file.length r - r.start := by
  have hE : streamEnd chunk file.length r ≤ file.length := Nat.min_le_right _ _
  have hkey : r.start ≤ streamEnd chunk file.length r ∨ file.length ≤ r.start := by
    have h0 := streamEnd_pre_ge_start chunk r
    unfold streamEnd
    omega
  have hbody := fileReadFrom_spec file r.start (streamEnd chunk file.length r) hE hkey
  rw [download_mp4_lecture_eq]
  refine ⟨_, rfl, rfl, rfl, rfl, rfl, rfl, hbody, ?_⟩
  rw [hbody]
  simp only [List.length_take, List.length_drop]
  omega

/-- Witness for C4: the amended response shape instantiated at a concrete
clamped request. -/
theorem C4_range_response_witness :
    ∃ resp, download_mp4_lecture 4 (some (List.range 10)) ⟨2, some 6⟩ = .ok resp
      ∧ resp.status = 206
      ∧ resp.acceptRanges = true
      ∧ resp.contentRangeStart = 2
      ∧ resp.contentRangeTotal = (List.range 10).length
      ∧ resp.contentRangeEnd = (streamEnd 4 (List.range 10).length ⟨2, some 6⟩ : Int) - 1
      ∧ resp.body = ((List.range 10).drop 2).take (streamEnd 4 (List.range 10).length ⟨2, some 6⟩ - 2)
      ∧ resp.body.length = streamEnd 4 (List.range 10).length ⟨2, some 6⟩ - 2 :=
  C4_range_response 4 (List.range 10) ⟨2, some 6⟩

/-- C5, counterexample: a valid token over a 10-byte file with the request
bytes=30- is not rejected - download_mp4_lecture returns a 206 response with
an empty body and Content-Range bytes 30-9/10. -/
theorem C5_counterexample :
    download_mp4_lecture 100 (some (List.range 10)) ⟨30, none⟩ =
      .ok { body := [], status := 206, contentRangeStart := 30,
            contentRangeEnd := 9, contentRangeTotal := 10, acceptRanges := true } := rfl

/-- C5, amended: when the start offset exceeds the file size the request is
not rejected; the clamped end equals the file size, and a 206 response with
an empty body and Content-Range bytes start-(S-1)/S is returned. -/
theorem C5_out_of_range_start (chunk : Nat) (file : FileBytes) (r : RangeReq)
    (h : file.length < r.start) :
    download_mp4_lecture chunk (some file) r =
      .ok { body := [], status := 206, contentRangeStart := r.start,
            contentRangeEnd := (file.length : Int) - 1,
            contentRangeTotal := file.length, acceptRanges := true } := by
  have hE : streamEnd chunk file.length r = file.length := by
    have h0 := streamEnd_pre_ge_start chunk r
    unfold streamEnd
    omega
  rw [download_mp4_lecture_eq, hE]
  have hbody : fileReadFrom file r.start ((file.length : Int) - (r.start : Int)) = [] := by
    unfold fileReadFrom
    rw [if_pos (by omega), List.drop_eq_nil_of_le (Nat.le_of_lt h)]
  rw [hbody]

/-- Witness for C5: a 3-byte file with the request bytes=5- yields the 206
response with the empty body and Content-Range bytes 5-2/3. -/
theorem C5_out_of_range_start_witness :
    (List.range 3).length < 5
      ∧ download_mp4_lecture 7 (some (List.range 3)) ⟨5, none⟩ =
          .ok { body := [], status := 206, contentRangeStart := 5,
                contentRangeEnd := ((List.range 3).length : Int) - 1,
                contentRangeTotal := (List.range 3).length, acceptRanges := true } :=
  ⟨by decide, C5_out_of_range_start 7 (List.range 3) ⟨5, none⟩ (by decide)⟩

/-- C6 (exhibiting the code bug): on a successful fetch the grand total is
the course view-time total plus the task view-time total, but when the
external subtask source fails (non-2xx response) or returns malformed data,
the raw httpx or validation exception propagates out of get_viewtime
uncaught - and get_tasks_viewtime can never return the typed DataFetchError
payload its response declaration documents, since challenge_subtasks either
returns a list or raises. -/
theorem C6_viewtime (cat : Catalog) (db : DB) (user : User) (ts : List SubTaskM) :
    get_viewtime cat db user (.ok ts) =
        .ok (get_course_viewtime_total cat db user.id
              + (ts.foldl (fun acc t => acc + taskTime t) 0 : Nat))
      ∧ get_viewtime cat db user .httpError = .error .httpStatusError
      ∧ get_viewtime cat db user .malformedData = .error .validationError
      ∧ ∀ fetch, get_tasks_viewtime fetch ≠ .ok .dataFetchError := by
  refine ⟨rfl, rfl, rfl, ?_⟩
  intro fetch
  cases fetch <;> simp [get_tasks_viewtime, challenge_subtasks]

/-- Witness for C6: the propagation of the raw transport failure at a
concrete state. -/
theorem C6_viewtime_witness :
    get_viewtime [] ⟨[], [], [], []⟩ ⟨"u", false⟩ .httpError = .error .httpStatusError :=
  (C6_viewtime [] ⟨[], [], [], []⟩ ⟨"u", false⟩ []).2.1

/-- The XP fan-out on a run whose first failing association is a: every
association before a has its increment applied in order, then a raises -
nothing after a is processed and only the prefix increments are logged. -/
theorem xpFanout_prefix_fail (env : Env) (uid : String) (amount : Nat)
    (pre : List SkillCourseRow) (a : SkillCourseRow) (rest : List SkillCourseRow) (st : St)
    (hpre : ∀ r ∈ pre, env.xpOk r.skill_id = true)
    (hfail : env.xpOk a.skill_id = false) :
    xpFanout env uid amount (pre ++ a :: rest) st =
      ({ st with xp_log := st.xp_log ++ pre.map (fun r => (uid, r.skill_id, amount)) },
        some (.xpFailure a.skill_id)) := by
  induction pre generalizing st with
  | nil =>
    show xpFanout env uid amount (a :: rest) st = _
    unfold xpFanout
    rw [if_neg (by simp [hfail])]
    simp
  | cons p ps ih =>
    show xpFanout env uid amount (p :: (ps ++ a :: rest)) st = _
    unfold xpFanout
    rw [if_pos (hpre p (List.mem_cons_self p ps)),
      ih _ (fun r hr => hpre r (List.mem_cons_of_mem p hr))]
    simp [List.append_assoc]

/-- C7, counterexample: with three skill associations for the course and an
AddXP collaborator failing on the second, complecte_lecture raises the
failure out of the loop after the first increment - the third association
never receives its XP increment (the xp log holds only the first), refuting
the claim that an individual failure is swallowed and the rest still
processed. -/
theorem C7_counterexample :
    (complecte_lecture ⟨fun _ => false, fun s => s != "s1", 3⟩
        ⟨⟨[], [], [], [⟨"s0", "c"⟩, ⟨"s1", "c"⟩, ⟨"s2", "c"⟩]⟩, ⟨fun _ => 0, []⟩,
          ⟨[], [], []⟩, []⟩
        ⟨"u", false⟩ ⟨"c", "T", false, 100, [⟨"S1", [⟨"l1", "mp4", 120, "L1"⟩]⟩]⟩ "l1").1
      = .error (.xpFailure "s1")
    ∧ (complecte_lecture ⟨fun _ => false, fun s => s != "s1", 3⟩
        ⟨⟨[], [], [], [⟨"s0", "c"⟩, ⟨"s1", "c"⟩, ⟨"s2", "c"⟩]⟩, ⟨fun _ => 0, []⟩,
          ⟨[], [], []⟩, []⟩
        ⟨"u", false⟩ ⟨"c", "T", false, 100, [⟨"S1", [⟨"l1", "mp4", 120, "L1"⟩]⟩]⟩
        "l1").2.xp_log
      = [("u", "s0", 3)]
    ∧ ¬ (("u", "s2", 3) ∈ (complecte_lecture ⟨fun _ => false, fun s => s != "s1", 3⟩
        ⟨⟨[], [], [], [⟨"s0", "c"⟩, ⟨"s1", "c"⟩, ⟨"s2", "c"⟩]⟩, ⟨fun _ => 0, []⟩,
          ⟨[], [], []⟩, []⟩
        ⟨"u", false⟩ ⟨"c", "T", false, 100, [⟨"S1", [⟨"l1", "mp4", 120, "L1"⟩]⟩]⟩
        "l1").2.xp_log) :=
  ⟨rfl, rfl, by decide⟩

/-- C7, amended: an XP-increment failure is not swallowed - wherever the
first failing association sits in the course's association list, the
associations before it keep their already applied increments, the failing
call raises out of the loop so neither it nor any remaining association
receives an increment, and the request errors with the caches uncleared and
only the already written completion row behind. -/
theorem C7_xp_failure_aborts (env : Env) (st : St) (user : User) (course : Course)
    (lecture_id : String) (lec : Lecture)
    (pre : List SkillCourseRow) (a : SkillCourseRow) (rest : List SkillCourseRow)
    (hlec : get_lecture course lecture_id = .ok lec)
    (hnc : is_completed st.db user.id course.id lec.id = false)
    (hassoc : st.db.skill_courses.filter (fun r => r.course_id == course.id)
        = pre ++ a :: rest)
    (hpre : ∀ r ∈ pre, env.xpOk r.skill_id = true)
    (hfail : env.xpOk a.skill_id = false) :
    complecte_lecture env st user course lecture_id =
      (.error (.xpFailure a.skill_id),
        { st with db := set_completed st.db user.id course.id lec.id,
                  xp_log := st.xp_log
                    ++ pre.map (fun r => (user.id, r.skill_id, env.lecture_xp)) }) := by
  unfold complecte_lecture
  rw [hlec]
  dsimp only
  rw [if_neg (by simp [hnc]), hassoc,
    xpFanout_prefix_fail env user.id env.lecture_xp pre a rest _ hpre hfail]

/-- Witness for C7: the amended abort behavior at the three-association
counterexample input, failing on the middle association. -/
theorem C7_xp_failure_aborts_witness :
    complecte_lecture ⟨fun _ => false, fun s => s != "s1", 3⟩
        ⟨⟨[], [], [], [⟨"s0", "c"⟩, ⟨"s1", "c"⟩, ⟨"s2", "c"⟩]⟩, ⟨fun _ => 0, []⟩,
          ⟨[], [], []⟩, []⟩
        ⟨"u", false⟩ ⟨"c", "T", false, 100, [⟨"S1", [⟨"l1", "mp4", 120, "L1"⟩]⟩]⟩ "l1" =
      (.error (.xpFailure "s1"),
        { db := set_completed ⟨[], [], [], [⟨"s0", "c"⟩, ⟨"s1", "c"⟩, ⟨"s2", "c"⟩]⟩
            "u" "c" "l1",
          shop := ⟨fun _ => 0, []⟩, cache := ⟨[], [], []⟩,
          xp_log := [] ++ [(⟨"s0", "c"⟩ : SkillCourseRow)].map
            (fun r => ("u", r.skill_id, 3)) }) :=
  C7_xp_failure_aborts ⟨fun _ => false, fun s => s != "s1", 3⟩
    ⟨⟨[], [], [], [⟨"s0", "c"⟩, ⟨"s1", "c"⟩, ⟨"s2", "c"⟩]⟩, ⟨fun _ => 0, []⟩,
      ⟨[], [], []⟩, []⟩
    ⟨"u", false⟩ ⟨"c", "T", false, 100, [⟨"S1", [⟨"l1", "mp4", 120, "L1"⟩]⟩]⟩ "l1"
    ⟨"l1", "mp4", 120, "L1"⟩ [⟨"s0", "c"⟩] ⟨"s1", "c"⟩ [⟨"s2", "c"⟩]
    rfl rfl rfl (by decide) rfl

/-- The check-then-populate read path only ever appends cache entries. -/
theorem get_owned_courses_cached_mono (db : DB) (cache : Cache) (uid : String)
    (e : String × List String) (he : e ∈ cache.course_access) :
    e ∈ ((get_owned_courses_cached db cache uid).2).course_access := by
  unfold get_owned_courses_cached
  cases cache.course_access.lookup uid <;> simp [he]

/-- The cached access check only ever appends cache entries. -/
theorem has_course_access_c_mono (env : Env) (db : DB) (cache : Cache) (course : Course)
    (user : User) (e : String × List String) (he : e ∈ cache.course_access) :
    e ∈ ((has_course_access_c env db cache course user).2).course_access := by
  unfold has_course_access_c
  by_cases h1 : (course.free || user.admin) = true
  · rw [if_pos h1]
    exact he
  · rw [if_neg h1]
    have hm := get_owned_courses_cached_mono db cache user.id e he
    rcases hcc : get_owned_courses_cached db cache user.id with ⟨owned, cache1⟩
    rw [hcc] at hm
    dsimp only at hm ⊢
    split_ifs <;> exact hm

/-- A successful purchase ends with the course_access namespace emptied. -/
theorem buy_course_ok_clears (st : St) (user : User) (course : Course) (st2 : St)
    (h : buy_course st user course = (.ok true, st2)) :
    st2.cache.course_access = [] := by
  unfold buy_course at h
  split_ifs at h with h1 h2
  · simp at h
  · simp at h
  · rcases hsc : spend_coins st.shop user.id course.price with ⟨b, shop1⟩
    rw [hsc] at h
    cases b
    · simp at h
    · simp only [Prod.mk.injEq] at h
      rw [← h.2]

/-- C8, counterexample: with the ownership set of user u cached as empty, a
successful watch_course on a free course writes the LastWatch row - a fact
the course_access namespace derives from - yet leaves the cache entry in
place, so the next cached read still answers the empty set while the
underlying get_owned_courses now contains the course. -/
theorem C8_counterexample :
    (watch_course ⟨fun _ => false, fun _ => true, 3⟩
        ⟨⟨[], [], [], []⟩, ⟨fun _ => 150, []⟩, ⟨[("u", [])], [], []⟩, []⟩
        ⟨"u", false⟩ ⟨"f", "F", true, 0, []⟩ 5).1 = .ok true
      ∧ (watch_course ⟨fun _ => false, fun _ => true, 3⟩
          ⟨⟨[], [], [], []⟩, ⟨fun _ => 150, []⟩, ⟨[("u", [])], [], []⟩, []⟩
          ⟨"u", false⟩ ⟨"f", "F", true, 0, []⟩ 5).2.cache.course_access = [("u", [])]
      ∧ (get_owned_courses_cached
          (watch_course ⟨fun _ => false, fun _ => true, 3⟩
            ⟨⟨[], [], [], []⟩, ⟨fun _ => 150, []⟩, ⟨[("u", [])], [], []⟩, []⟩
            ⟨"u", false⟩ ⟨"f", "F", true, 0, []⟩ 5).2.db
          (watch_course ⟨fun _ => false, fun _ => true, 3⟩
            ⟨⟨[], [], [], []⟩, ⟨fun _ => 150, []⟩, ⟨[("u", [])], [], []⟩, []⟩
            ⟨"u", false⟩ ⟨"f", "F", true, 0, []⟩ 5).2.cache "u").1 = []
      ∧ get_owned_courses
          (watch_course ⟨fun _ => false, fun _ => true, 3⟩
            ⟨⟨[], [], [], []⟩, ⟨fun _ => 150, []⟩, ⟨[("u", [])], [], []⟩, []⟩
            ⟨"u", false⟩ ⟨"f", "F", true, 0, []⟩ 5).2.db "u" = ["f"] :=
  ⟨rfl, rfl, rfl, rfl⟩

/-- C8, amended: buy_course does invalidate the course_access namespace on a
successful purchase, but watch_course performs no invalidation at all for
its LastWatch write - every cache entry present before the call is still
present afterwards, so a cached ownership read may miss the new row until
the entry expires. -/
theorem C8_invalidation (env : Env) (st : St) (user : User) (course : Course) (t : Nat) :
    (∀ e ∈ st.cache.course_access,
        e ∈ (watch_course env st user course t).2.cache.course_access)
    ∧ (∀ st2, buy_course st user course = (.ok true, st2) →
        st2.cache.course_access = []) := by
  constructor
  · intro e he
    unfold watch_course
    have hm := has_course_access_c_mono env st.db st.cache course user e he
    rcases hca : has_course_access_c env st.db st.cache course user with ⟨res, cache1⟩
    rw [hca] at hm
    cases res <;> exact hm
  · exact fun st2 h => buy_course_ok_clears st user course st2 h

/-- Witness for C8: the stale entry of the counterexample state indeed
survives the watch_course call, and the purchase of the counterexample
course empties the namespace. -/
theorem C8_invalidation_witness :
    ("u", ([] : List String)) ∈
      (watch_course ⟨fun _ => false, fun _ => true, 3⟩
        ⟨⟨[], [], [], []⟩, ⟨fun _ => 150, []⟩, ⟨[("u", [])], [], []⟩, []⟩
        ⟨"u", false⟩ ⟨"f", "F", true, 0, []⟩ 5).2.cache.course_access :=
  (C8_invalidation ⟨fun _ => false, fun _ => true, 3⟩
      ⟨⟨[], [], [], []⟩, ⟨fun _ => 150, []⟩, ⟨[("u", [])], [], []⟩, []⟩
      ⟨"u", false⟩ ⟨"f", "F", true, 0, []⟩ 5).1 ("u", []) (by decide)

/-- The XP fan-out touches only the xp log: database and cache pass through. -/
theorem xpFanout_preserves (env : Env) (uid : String) (amount : Nat)
    (l : List SkillCourseRow) (st : St) :
    (xpFanout env uid amount l st).1.db = st.db
      ∧ (xpFanout env uid amount l st).1.cache = st.cache := by
  induction l generalizing st with
  | nil => exact ⟨rfl, rfl⟩
  | cons a rest ih =>
    unfold xpFanout
    by_cases h : env.xpOk a.skill_id = true
    · rw [if_pos h]
      exact ih _
    · rw [if_neg h]
      exact ⟨rfl, rfl⟩

/-- When every AddXP call succeeds the fan-out raises nothing. -/
theorem xpFanout_all_ok (env : Env) (uid : String) (amount : Nat)
    (l : List SkillCourseRow) (st : St)
    (hok : ∀ r ∈ l, env.xpOk r.skill_id = true) :
    (xpFanout env uid amount l st).2 = none := by
  induction l generalizing st with
  | nil => rfl
  | cons a rest ih =>
    unfold xpFanout
    rw [if_pos (hok a (List.mem_cons_self a rest))]
    exact ih _ (fun r hr => hok r (List.mem_cons_of_mem a hr))

/-- A freshly written completion row is seen by the completion check. -/
theorem is_completed_set_completed (db : DB) (uid cid lid : String) :
    is_completed (set_completed db uid cid lid) uid cid lid = true := by
  simp [is_completed, set_completed]

/-- C9: the catalog-existence check runs before the completion-conflict
check - a lecture id absent from the course is rejected as NotFound whatever
completion rows the state holds; and for a lecture of the catalog not yet
completed (with the XP collaborator healthy), the first call succeeds, the
second call on the resulting state rejects with AlreadyCompleted without
changing it, and the completed set has grown by exactly one row. -/
theorem C9_complete_twice (env : Env) (st : St) (user : User) (course : Course)
    (lecture_id : String) :
    (get_lecture course lecture_id = .error .lectureNotFound →
        complecte_lecture env st user course lecture_id =
          (.error (.api .lectureNotFound), st))
    ∧ (∀ lec, get_lecture course lecture_id = .ok lec →
        is_completed st.db user.id course.id lec.id = false →
        (∀ r ∈ st.db.skill_courses.filter (fun r => r.course_id == course.id),
            env.xpOk r.skill_id = true) →
        ∃ st1, complecte_lecture env st user course lecture_id = (.ok true, st1)
          ∧ complecte_lecture env st1 user course lecture_id =
              (.error (.api .alreadyCompleted), st1)
          ∧ st1.db = set_completed st.db user.id course.id lec.id
          ∧ st1.db.lecture_progress.length = st.db.lecture_progress.length + 1) := by
  constructor
  · intro h
    unfold complecte_lecture
    rw [h]
  · intro lec hlec hnc hok
    have hpres := xpFanout_preserves env user.id env.lecture_xp
      (st.db.skill_courses.filter (fun r => r.course_id == course.id))
      { st with db := set_completed st.db user.id course.id lec.id }
    have hnone := xpFanout_all_ok env user.id env.lecture_xp
      (st.db.skill_courses.filter (fun r => r.course_id == course.id))
      { st with db := set_completed st.db user.id course.id lec.id } hok
    rcases hfan : xpFanout env user.id env.lecture_xp
        (st.db.skill_courses.filter (fun r => r.course_id == course.id))
        { st with db := set_completed st.db user.id course.id lec.id } with ⟨stF, oe⟩
    rw [hfan] at hpres hnone
    dsimp only at hpres hnone
    subst hnone
    have hdbF : stF.db = set_completed st.db user.id course.id lec.id := hpres.1
    refine ⟨{ stF with cache := { stF.cache with xp := [], lecture_progress := [] } },
      ?_, ?_, hdbF, ?_⟩
    · unfold complecte_lecture
      rw [hlec]
      dsimp only
      rw [if_neg (by simp [hnc]), hfan]
    · unfold complecte_lecture
      rw [hlec]
      dsimp only
      rw [if_pos (by rw [show ({ stF with
          cache := { stF.cache with xp := [], lecture_progress := [] } } : St).db = stF.db
          from rfl, hdbF]; exact is_completed_set_completed st.db user.id course.id lec.id)]
    · rw [hdbF]
      simp [set_completed]

/-- Witness for C9: on a one-lecture course with no skill associations, the
first completion succeeds, the second conflicts, and the progress table has
grown by one row. -/
theorem C9_complete_twice_witness :
    ∃ st1,
      complecte_lecture ⟨fun _ => false, fun _ => true, 3⟩
          ⟨⟨[], [], [], []⟩, ⟨fun _ => 0, []⟩, ⟨[], [], []⟩, []⟩
          ⟨"u", false⟩ ⟨"c", "T", false, 100, [⟨"S1", [⟨"l1", "mp4", 120, "L1"⟩]⟩]⟩ "l1" =
          (.ok true, st1)
        ∧ complecte_lecture ⟨fun _ => false, fun _ => true, 3⟩ st1
            ⟨"u", false⟩ ⟨"c", "T", false, 100, [⟨"S1", [⟨"l1", "mp4", 120, "L1"⟩]⟩]⟩ "l1" =
            (.error (.api .alreadyCompleted), st1)
        ∧ st1.db = set_completed ⟨[], [], [], []⟩ "u" "c" "l1"
        ∧ st1.db.lecture_progress.length =
            (DB.lecture_progress ⟨[], [], [], []⟩).length + 1 :=
  (C9_complete_twice ⟨fun _ => false, fun _ => true, 3⟩
      ⟨⟨[], [], [], []⟩, ⟨fun _ => 0, []⟩, ⟨[], [], []⟩, []⟩
      ⟨"u", false⟩ ⟨"c", "T", false, 100, [⟨"S1", [⟨"l1", "mp4", 120, "L1"⟩]⟩]⟩ "l1").2
    ⟨"l1", "mp4", 120, "L1"⟩ rfl rfl (by decide)

/-- C10: next_unseen_lecture computes exactly the specification reading -
the first (section, lecture) pair in section order then lecture order whose
lecture id is not in the completed set, and, when every lecture is watched,
the first lecture of the first section, failing (none) when the course has
no section or its first section has no lecture - in particular for an empty
course. -/
theorem C10_next_unseen (course : Course) (watched : List String) :
    next_unseen_lecture course watched = specNextUnseen course watched := by
  unfold next_unseen_lecture specNextUnseen coursePairs
  rw [List.find?_flatMap]
  have harm : ∀ s : CourseSection,
      (s.lectures.map (fun l => (s, l))).find?
          (fun p => !(watched.contains p.2.id)) =
        (s.lectures.find? (fun l => !(watched.contains l.id))).map (fun l => (s, l)) := by
    intro s
    rw [List.find?_map]
    rfl
  simp only [harm]

/-- Witness for C10: the scan and its specification agree on a course whose
first section is empty and whose single lecture is already watched. -/
theorem C10_next_unseen_witness :
    next_unseen_lecture
        ⟨"c", "T", true, 0, [⟨"SE", []⟩, ⟨"S1", [⟨"l1", "mp4", 120, "L1"⟩]⟩]⟩ ["l1"] =
      specNextUnseen
        ⟨"c", "T", true, 0, [⟨"SE", []⟩, ⟨"S1", [⟨"l1", "mp4", 120, "L1"⟩]⟩]⟩ ["l1"] :=
  C10_next_unseen ⟨"c", "T", true, 0, [⟨"SE", []⟩, ⟨"S1", [⟨"l1", "mp4", 120, "L1"⟩]⟩]⟩ ["l1"]

end SkillsMs
